import Mathlib

/-!
Verification of `cmd/dockerd/service_windows.go`: the Windows service
lifecycle coordinator of the docker daemon.  The Go source is shallowly
embedded below: the event-log hook (`etwHook.Fire`), the service handler
state machine (`handler.Execute`), the entry dispatch (`initService`), the
daemon-side calls (`handler.started`), and the panic-file fault capture
(`initPanicFile` / `removePanicFile`).  File-system and OS-handle effects
are modelled by an explicit state (`SysState`) threaded through the
functions, with injectable OS-call errors (`OsEnv`) mirroring each
`if err != nil` check of the source.
-/

/-! ### Event Reporting Adapter (etwHook) -/

/-- Event identifier constants from the source (`const` block, lines 36-44).
Note that `eventInfo`, `eventWarn` and `eventError` all equal 1 in the source. -/
def eventInfo : Nat := 1

/-- Event identifier for warning-level records (source value 1). -/
def eventWarn : Nat := 1

/-- Event identifier for error-level records (source value 1). -/
def eventError : Nat := 1

/-- Event identifier for debug-level records (source value 2). -/
def eventDebug : Nat := 2

/-- Event identifier for panic-level records (source value 3). -/
def eventPanic : Nat := 3

/-- Event identifier for fatal-level records (source value 4). -/
def eventFatal : Nat := 4

/-- Offset added to any event identifier to signal extended data
(`eventExtraOffset` in the source). -/
def eventExtraOffset : Nat := 10

/-- Windows event type `EVENTLOG_ERROR_TYPE` (value 1). -/
def EVENTLOG_ERROR_TYPE : Nat := 1

/-- Windows event type `EVENTLOG_WARNING_TYPE` (value 2). -/
def EVENTLOG_WARNING_TYPE : Nat := 2

/-- Windows event type `EVENTLOG_INFORMATION_TYPE` (value 4). -/
def EVENTLOG_INFORMATION_TYPE : Nat := 4

/-- logrus severity levels, as the numeric values of `logrus.Level`. -/
def PanicLevel : Nat := 0

/-- logrus `FatalLevel`. -/
def FatalLevel : Nat := 1

/-- logrus `ErrorLevel`. -/
def ErrorLevel : Nat := 2

/-- logrus `WarnLevel`. -/
def WarnLevel : Nat := 3

/-- logrus `InfoLevel`. -/
def InfoLevel : Nat := 4

/-- logrus `DebugLevel`. -/
def DebugLevel : Nat := 5

/-- Severity switch of `etwHook.Fire` (source lines 73-94): maps a logrus
level to the Windows event type and the base event identifier, or `none` for
the `default` branch (`errors.New("unknown level")`). -/
def levelEventInfo (level : Nat) : Option (Nat × Nat) :=
  if level = PanicLevel then some (EVENTLOG_ERROR_TYPE, eventPanic)
  else if level = FatalLevel then some (EVENTLOG_ERROR_TYPE, eventFatal)
  else if level = ErrorLevel then some (EVENTLOG_ERROR_TYPE, eventError)
  else if level = WarnLevel then some (EVENTLOG_WARNING_TYPE, eventWarn)
  else if level = InfoLevel then some (EVENTLOG_INFORMATION_TYPE, eventInfo)
  else if level = DebugLevel then some (EVENTLOG_INFORMATION_TYPE, eventDebug)
  else none

/-- Byte buffer written by the field loop of `etwHook.Fire` (lines 99-105):
for each entry key `k` and value `v` it writes `k`, the byte 0x3D, `v`, a
space.  Field values are taken already formatted to strings (the source
formats them with `fmt.Fprint`).  Characters stand for the buffer's bytes. -/
def fieldBuffer (data : List (String × String)) : List Char :=
  List.flatten (data.map fun kv => kv.1.data ++ '=' :: (kv.2.data ++ [' ']))

/-- Flattened extra-field string of `etwHook.Fire`:
`fs.String()[:fs.Len()-1]`, the buffer contents with the final byte (the
trailing space) removed (source line 107). -/
def flattenData (data : List (String × String)) : String :=
  String.mk (fieldBuffer data).dropLast

/-- Spec-side formulation of the flattened string: the `key=value` pairs
joined by single spaces.  This follows the specification's words and is
compared against `flattenData`, which follows the source. -/
def specFlatten : List (String × String) → String
  | [] => ""
  | kv :: rest =>
    kv.1 ++ "=" ++ kv.2 ++ (if rest.isEmpty then "" else " " ++ specFlatten rest)

/-- True when the string holds an interior NUL character, which makes
`syscall.UTF16PtrFromString` fail in the source. -/
def hasNul (s : String) : Bool :=
  s.data.any fun c => c = Char.ofNat 0

/-- Observable outcome of a successful `etwHook.Fire` call: either a line
written to standard error (no event-log handle) or an event submitted via
`windows.ReportEvent` with an event type, an event identifier and one or two
strings. -/
inductive FireOutput where
  | stderrLine (s : String)
  | event (etype : Nat) (eid : Nat) (strings : List String)
deriving DecidableEq, Repr

/-- Embedding of `etwHook.Fire` (source lines 67-137).  `hasLog` is whether
`h.log` is non-nil.  `data` is the entry's field map in its iteration
order. -/
def fire (hasLog : Bool) (level : Nat) (message : String)
    (data : List (String × String)) : Except String FireOutput :=
  match levelEventInfo level with
  | none => Except.error "unknown level"
  | some (etype, eid0) =>
    let exts := if 0 < data.length then flattenData data else ""
    let eid := if 0 < data.length then eid0 + eventExtraOffset else eid0
    if !hasLog then
      Except.ok (FireOutput.stderrLine (message ++ " [" ++ exts ++ "]\n"))
    else if hasNul message then
      Except.error "invalid UTF-16 string"
    else if exts ≠ "" && hasNul exts then
      Except.error "invalid UTF-16 string"
    else
      Except.ok (FireOutput.event etype eid
        (if exts ≠ "" then [message, exts] else [message]))

/-! ### Lifecycle Coordinator: the `handler.Execute` state machine -/

/-- Service states reported to the service control manager. -/
inductive SvcState where
  | startPending
  | running
  | stopPending
  | stopped
deriving DecidableEq, Repr

/-- Control requests the `Execute` loop can receive (`svc.ChangeRequest`).
`interrogate` carries the `CurrentStatus` field echoed back by the loop. -/
inductive SvcCmd where
  | interrogate (cur : SvcState)
  | stop
  | shutdown
  | paramChange
deriving DecidableEq, Repr

/-- One receive completed by `Execute`: either a boolean off the `tosvc`
channel (sent by `started` / `stopped`) or a control request off `r`. -/
inductive SvcEvent where
  | signal (failed : Bool)
  | control (c : SvcCmd)
deriving DecidableEq, Repr

/-- Result of a terminated `Execute` run: the statuses it sent on `s`, the
returned service-specific-exit-code flag and exit code, the number of
`daemonCli.reloadConfig` and `daemonCli.stop` calls it made, and whether it
reached the `removePanicFile()` call. -/
structure ExecResult where
  statuses : List SvcState
  svcSpecificEC : Bool
  exitCode : Nat
  reloads : Nat
  stops : Nat
  panicFileReleased : Bool
deriving DecidableEq, Repr

/-- Request-select loop of `Execute` (source lines 293-309), entered after
the Running status is reported.  A `signal` event ends the loop (the
`break Loop` branch); control requests are dispatched as in the source. -/
def execLoop (events : List SvcEvent) (statuses : List SvcState)
    (reloads stops : Nat) : Option ExecResult :=
  match events with
  | [] => none
  | SvcEvent.signal failed :: _ =>
    some ⟨statuses, failed, if failed then 1 else 0, reloads, stops, true⟩
  | SvcEvent.control c :: rest =>
    match c with
    | SvcCmd.paramChange => execLoop rest statuses (reloads + 1) stops
    | SvcCmd.interrogate cur => execLoop rest (statuses ++ [cur]) reloads stops
    | SvcCmd.stop =>
      execLoop rest (statuses ++ [SvcState.stopPending]) reloads (stops + 1)
    | SvcCmd.shutdown =>
      execLoop rest (statuses ++ [SvcState.stopPending]) reloads (stops + 1)

/-- Embedding of `handler.Execute` (source lines 279-316), as a function of
the serialized sequence of receives it completes.  It first reports
StartPending and unblocks `initService`, then receives the `failed` boolean
from `started` on `tosvc`; before that receive no control request is taken,
so a well-formed trace starts with a `signal`.  If `failed` it returns
`(true, 1)` at once; otherwise it reports Running and enters `execLoop`.
`none` means the trace ended with the handler still blocked. -/
def handlerExecute (events : List SvcEvent) : Option ExecResult :=
  match events with
  | SvcEvent.signal failed :: rest =>
    if failed then some ⟨[SvcState.startPending], true, 1, 0, 0, false⟩
    else execLoop rest [SvcState.startPending, SvcState.running] 0 0
  | _ => none

/-- Modelled from the spec: the final Stopped report.  The host service
framework (`svc.Run` / `debug.Run`, vendored dependency, not under `src/`)
reports the Stopped state with `Execute`'s exit code to the host after
`Execute` returns; the spec describes this as reporting "final status
(Stopped, exit code 1 if failed else 0)" on loop exit. -/
def svcRun (events : List SvcEvent) : Option ExecResult :=
  (handlerExecute events).map fun r =>
    { r with statuses := r.statuses ++ [SvcState.stopped] }

/-! ### Entry dispatch: `initService` -/

/-- Outcomes of the external calls `initService` makes, so the dispatch can
be modelled as a pure function: results of `unregisterService()`,
`registerService()`, `svc.IsAnInteractiveSession()`, `eventlog.Open` and the
first value received on `fromsvc` (the handshake with `Execute`). -/
structure InitEnv where
  unregisterResult : Option String
  registerResult : Option String
  interactiveSession : Except String Bool
  openEventLogResult : Option String
  handshake : Option String
deriving Repr

/-- Embedding of `initService` (source lines 206-260): the flag dispatch
between unregister, register, plain run, and run-as-service, returning the
`(exitRequested, error)` pair of the source. -/
def initService (flUnregisterService flRegisterService flRunService : Bool)
    (env : InitEnv) : Bool × Option String :=
  if flUnregisterService then
    if flRegisterService then
      (true, some "--register-service and --unregister-service cannot be used together")
    else
      (true, env.unregisterResult)
  else if flRegisterService then
    (true, env.registerResult)
  else if !flRunService then
    (false, none)
  else
    match env.interactiveSession with
    | Except.error e => (false, some e)
    | Except.ok interactive =>
      match (if !interactive then env.openEventLogResult else none) with
      | some e => (false, some e)
      | none =>
        match env.handshake with
        | some e => (false, some e)
        | none => (false, none)

/-! ### Fault Capture: `initPanicFile` / `removePanicFile` -/

/-- An OS handle: either a process standard handle slot value or the handle
of an open file at a path. -/
inductive OsHandle where
  | std (n : Nat)
  | file (path : String)
deriving DecidableEq, Repr

/-- State visible to the fault-capture code: the file system (path to file
size), the multiset of open file handles (as a list of paths), the process
standard-error handle, the saved `oldStderr` global, and which path the
`panicFile` global currently refers to. -/
structure SysState where
  files : List (String × Nat)
  openFiles : List String
  stderrHandle : OsHandle
  oldStderr : OsHandle
  panicFile : Option String
deriving DecidableEq, Repr

/-- Injectable results of the fallible OS calls inside `initPanicFile`,
one per `if err != nil` check of the source: `os.OpenFile`, `File.Stat`,
`os.Create`, `GetStdHandle` and the `SetStdHandle` procedure call. -/
structure OsEnv where
  openErr : Option String
  statErr : Option String
  createErr : Option String
  getStdHandleErr : Option String
  setStdHandleErr : Option String
deriving DecidableEq, Repr

/-- Environment in which every OS call succeeds. -/
def noErr : OsEnv := ⟨none, none, none, none, none⟩

/-- Size of the file at a path, `none` when no file exists there. -/
def lookupFile : List (String × Nat) → String → Option Nat
  | [], _ => none
  | (k, v) :: rest, p => if k = p then some v else lookupFile rest p

/-- Remove the file at a path from the file system. -/
def removeFile : List (String × Nat) → String → List (String × Nat)
  | [], _ => []
  | (k, v) :: rest, p =>
    if k = p then removeFile rest p else (k, v) :: removeFile rest p

/-- Create or overwrite the file at a path with the given size. -/
def setFile (l : List (String × Nat)) (p : String) (n : Nat) :
    List (String × Nat) :=
  (p, n) :: removeFile l p

/-- Close one open handle on the given path. -/
def closeOne : List String → String → List String
  | [], _ => []
  | h :: t, p => if h = p then t else h :: closeOne t p

/-- Tail of `initPanicFile` (source lines 344-357): `GetStdHandle` on
`STD_ERROR_HANDLE`, saving the result in the `oldStderr` global, then
`SetStdHandle` redirecting standard error to the panic file's handle. -/
def redirectStderr (env : OsEnv) (s : SysState) (path : String) :
    SysState × Option String :=
  match env.getStdHandleErr with
  | some e => (s, some e)
  | none =>
    let s1 := { s with oldStderr := s.stderrHandle }
    match env.setStdHandleErr with
    | some e => (s1, some e)
    | none => ({ s1 with stderrHandle := OsHandle.file path }, none)

/-- Embedding of `initPanicFile` (source lines 318-358).  Opens (creating if
absent) the file at `path` in append mode, stats it, and if its size is
positive closes it, renames it to `path ++ ".old"` (overwriting, the
`os.Rename` error being ignored by the source) and creates a fresh empty
file at `path`; finally saves and redirects the standard-error handle.
Returns the updated state and the function's error result. -/
def initPanicFile (env : OsEnv) (s : SysState) (path : String) :
    SysState × Option String :=
  match env.openErr with
  | some e => (s, some e)
  | none =>
    let size := (lookupFile s.files path).getD 0
    let s1 : SysState :=
      { s with
        files := setFile s.files path size
        openFiles := path :: s.openFiles
        panicFile := some path }
    match env.statErr with
    | some e => (s1, some e)
    | none =>
      if 0 < size then
        let s2 : SysState :=
          { s1 with
            openFiles := closeOne s1.openFiles path
            files := setFile (removeFile s1.files path) (path ++ ".old") size
            panicFile := none }
        match env.createErr with
        | some e => (s2, some e)
        | none =>
          let s3 : SysState :=
            { s2 with
              files := setFile s2.files path 0
              openFiles := path :: s2.openFiles
              panicFile := some path }
          redirectStderr env s3 path
      else
        redirectStderr env s1 path

/-- Embedding of `removePanicFile` (source lines 360-369): stat the panic
file (a nil or stale handle makes the stat fail, leaving everything alone);
when its size is zero, restore the saved standard-error handle, close the
file and remove it; when non-zero, change nothing. -/
def removePanicFile (s : SysState) : SysState :=
  match s.panicFile with
  | none => s
  | some p =>
    match lookupFile s.files p with
    | none => s
    | some n =>
      if n = 0 then
        { s with
          stderrHandle := s.oldStderr
          openFiles := closeOne s.openFiles p
          files := removeFile s.files p }
      else s

/-- Windows `filepath.Join` of a directory and a file name, as used at
source line 264. -/
def winJoin (dir name : String) : String := dir ++ "\\" ++ name

/-- Embedding of `handler.started` (source lines 262-271): install the
panic file at `filepath.Join(daemonCli.Config.Root, "panic.log")`; on
success send `false` on `tosvc` and return `nil`; on failure return the
error without sending.  The middle component lists the values sent on
`tosvc`. -/
def started (env : OsEnv) (s : SysState) (root : String) :
    Option String × List Bool × SysState :=
  match initPanicFile env s (winJoin root "panic.log") with
  | (s1, some e) => (some e, [], s1)
  | (s1, none) => (none, [false], s1)

/-! ### Claim theorems -/

/-- C1 counterexample: in an execution where `begin` succeeds, `started`
returns nil and `stopped(nil)` is called with no intervening Stop or
Shutdown control request, the reported sequence is StartPending, Running,
Stopped — the StopPending report is absent, so the claimed sequence
StartPending, Running, StopPending, Stopped does not hold of every such
execution. -/
theorem c1_counterexample :
    svcRun [SvcEvent.signal false, SvcEvent.signal false] =
      some ⟨[SvcState.startPending, SvcState.running, SvcState.stopped],
        false, 0, 0, 0, true⟩ ∧
    [SvcState.startPending, SvcState.running, SvcState.stopped] ≠
      [SvcState.startPending, SvcState.running, SvcState.stopPending,
        SvcState.stopped] :=
  ⟨rfl, by decide⟩

/-- C1 (amended): when the stop is initiated by a host Stop or Shutdown
control request — `begin` succeeds, `started` returns nil, one Stop or
Shutdown request is processed, then `stopped(nil)` — the control-callback
loop reports exactly StartPending, Running, StopPending, Stopped, makes one
shutdown notification to the daemon, and the final exit is success (service
specific exit code flag false, exit code 0). -/
theorem c1_graceful_sequence (c : SvcCmd)
    (h : c = SvcCmd.stop ∨ c = SvcCmd.shutdown) :
    svcRun [SvcEvent.signal false, SvcEvent.control c, SvcEvent.signal false] =
      some ⟨[SvcState.startPending, SvcState.running, SvcState.stopPending,
        SvcState.stopped], false, 0, 0, 1, true⟩ := by
  rcases h with rfl | rfl <;> rfl

/-- Witness for the amended C1 theorem at the concrete Stop command. -/
theorem c1_graceful_witness :
    (SvcCmd.stop = SvcCmd.stop ∨ SvcCmd.stop = SvcCmd.shutdown) ∧
    svcRun [SvcEvent.signal false, SvcEvent.control SvcCmd.stop,
        SvcEvent.signal false] =
      some ⟨[SvcState.startPending, SvcState.running, SvcState.stopPending,
        SvcState.stopped], false, 0, 0, 1, true⟩ :=
  ⟨Or.inl rfl, c1_graceful_sequence SvcCmd.stop (Or.inl rfl)⟩

/-- C2: when `started` fails (the boolean received on `tosvc` is true), the
control loop has reported only StartPending, returns service-specific exit
code 1 without releasing the panic file, never reports Running, and does so
regardless of any later events — in particular no `stopped` interaction is
consumed. -/
theorem c2_start_failure (rest : List SvcEvent) :
    handlerExecute (SvcEvent.signal true :: rest) =
      some ⟨[SvcState.startPending], true, 1, 0, 0, false⟩ ∧
    SvcState.running ∉ [SvcState.startPending] :=
  ⟨rfl, by decide⟩

/-- C4 counterexample: Info and Warn are distinct severities but are mapped
to the same numeric event identifier 1, so the six severities are not mapped
to distinct identifiers. -/
theorem c4_counterexample :
    levelEventInfo InfoLevel = some (EVENTLOG_INFORMATION_TYPE, 1) ∧
    levelEventInfo WarnLevel = some (EVENTLOG_WARNING_TYPE, 1) ∧
    InfoLevel ≠ WarnLevel := by
  decide

/-- C4 (amended): the severity table maps Warn to the warning category,
Info and Debug to the informational category, and Error, Fatal and Panic to
the error category; the numeric identifiers are Info = Warn = Error = 1,
Debug = 2, Panic = 3, Fatal = 4 — so only Debug, Panic and Fatal are
pairwise distinct from the shared identifier 1 and from each other. -/
theorem c4_severity_table :
    levelEventInfo PanicLevel = some (EVENTLOG_ERROR_TYPE, eventPanic) ∧
    levelEventInfo FatalLevel = some (EVENTLOG_ERROR_TYPE, eventFatal) ∧
    levelEventInfo ErrorLevel = some (EVENTLOG_ERROR_TYPE, eventError) ∧
    levelEventInfo WarnLevel = some (EVENTLOG_WARNING_TYPE, eventWarn) ∧
    levelEventInfo InfoLevel = some (EVENTLOG_INFORMATION_TYPE, eventInfo) ∧
    levelEventInfo DebugLevel = some (EVENTLOG_INFORMATION_TYPE, eventDebug) ∧
    eventInfo = 1 ∧ eventWarn = 1 ∧ eventError = 1 ∧
    eventDebug = 2 ∧ eventPanic = 3 ∧ eventFatal = 4 := by
  decide

/-- C5 counterexample: with neither flag set (and the run-service flag also
clear), `initService` returns exit-requested `false`, not `true` as the
claim states for the neither-flag path. -/
theorem c5_counterexample :
    initService false false false ⟨none, none, Except.ok true, none, none⟩ =
      (false, none) ∧
    (false : Bool) ≠ true :=
  ⟨rfl, by decide⟩

/-- C5 (amended): `initService` returns exit-requested `true` exactly on the
register-service, unregister-service and conflicting-flags paths; both the
neither-flag path and the run-as-service path return exit-requested
`false`. -/
theorem c5_exit_requested (env : InitEnv) (run : Bool) :
    (initService true false run env).1 = true ∧
    (initService false true run env).1 = true ∧
    (initService true true run env).1 = true ∧
    (initService false false false env).1 = false ∧
    (initService false false true env).1 = false := by
  obtain ⟨u, r, i, o, hs⟩ := env
  refine ⟨rfl, rfl, rfl, rfl, ?_⟩
  rcases i with e | b
  · rfl
  · rcases b <;> rcases o <;> rcases hs <;> rfl

/-- C10: a record whose severity level is none of the six recognized logrus
levels makes `fire` return the "unknown level" error, submitting nothing to
the event log or the fallback stream. -/
theorem c10_unknown_level (hasLog : Bool) (level : Nat) (msg : String)
    (data : List (String × String))
    (h : level ∉ [PanicLevel, FatalLevel, ErrorLevel, WarnLevel, InfoLevel,
      DebugLevel]) :
    fire hasLog level msg data = Except.error "unknown level" := by
  simp only [List.mem_cons, List.mem_singleton, not_or] at h
  obtain ⟨h0, h1, h2, h3, h4, h5⟩ := h
  simp [fire, levelEventInfo, h0, h1, h2, h3, h4, h5]

/-- Witness for the C10 theorem at the unrecognized level 6. -/
theorem c10_witness :
    (6 : Nat) ∉ [PanicLevel, FatalLevel, ErrorLevel, WarnLevel, InfoLevel,
      DebugLevel] ∧
    fire true 6 "x" [] = Except.error "unknown level" :=
  ⟨by decide, c10_unknown_level true 6 "x" [] (by decide)⟩

/-! ### Helper lemmas -/

/-- Looking up the path just written by `setFile` yields the written size. -/
theorem lookupFile_setFile_self (l : List (String × Nat)) (p : String)
    (n : Nat) : lookupFile (setFile l p n) p = some n := by
  simp [setFile, lookupFile]

/-- Removing one path leaves lookups of other paths unchanged. -/
theorem lookupFile_removeFile_ne (l : List (String × Nat)) (p q : String)
    (h : p ≠ q) : lookupFile (removeFile l p) q = lookupFile l q := by
  induction l with
  | nil => rfl
  | cons kv rest ih =>
    obtain ⟨k, v⟩ := kv
    by_cases hk : k = p
    · subst hk
      simp [removeFile, lookupFile, ih, h]
    · simp only [removeFile, if_neg hk, lookupFile]
      by_cases hq : k = q
      · simp [hq]
      · simp [hq, ih]

/-- Writing one path leaves lookups of other paths unchanged. -/
theorem lookupFile_setFile_ne (l : List (String × Nat)) (p q : String)
    (n : Nat) (h : p ≠ q) :
    lookupFile (setFile l p n) q = lookupFile l q := by
  simp [setFile, lookupFile, h, lookupFile_removeFile_ne l p q h]

/-- Appending the ".old" suffix changes the path. -/
theorem append_old_ne (path : String) : path ++ ".old" ≠ path := by
  intro h
  have hd := congrArg String.data h
  simp only [String.data_append] at hd
  have := congrArg List.length hd
  simp [List.length_append] at this

/-- The field buffer of a nonempty field list is nonempty. -/
theorem fieldBuffer_cons_ne_nil (kv : String × String)
    (rest : List (String × String)) : fieldBuffer (kv :: rest) ≠ [] := by
  obtain ⟨k, v⟩ := kv
  simp [fieldBuffer]

/-- The source's flattened field string agrees with the spec's reading:
`key=value` pairs joined by single spaces, for a nonempty field list. -/
theorem flattenData_cons (kv : String × String)
    (rest : List (String × String)) :
    flattenData (kv :: rest) = specFlatten (kv :: rest) := by
  induction rest generalizing kv with
  | nil =>
    obtain ⟨k, v⟩ := kv
    apply String.ext
    calc (flattenData [(k, v)]).data
        = ((k.data ++ '=' :: v.data) ++ [' ']).dropLast := by
          simp [flattenData, fieldBuffer]
      _ = k.data ++ '=' :: v.data := List.dropLast_concat
      _ = (specFlatten [(k, v)]).data := by
          simp [specFlatten, String.data_append]
  | cons kv2 rest2 ih =>
    obtain ⟨k, v⟩ := kv
    have hne := fieldBuffer_cons_ne_nil kv2 rest2
    have hspec : (fieldBuffer (kv2 :: rest2)).dropLast =
        (specFlatten (kv2 :: rest2)).data := by
      have hs := congrArg String.data (ih kv2)
      simp only [flattenData] at hs
      exact hs
    apply String.ext
    calc (flattenData ((k, v) :: kv2 :: rest2)).data
        = ((k.data ++ '=' :: (v.data ++ [' '])) ++
            fieldBuffer (kv2 :: rest2)).dropLast := by
          simp [flattenData, fieldBuffer]
      _ = (k.data ++ '=' :: (v.data ++ [' '])) ++
            (fieldBuffer (kv2 :: rest2)).dropLast :=
          List.dropLast_append_of_ne_nil _ hne
      _ = (specFlatten ((k, v) :: kv2 :: rest2)).data := by
          rw [hspec]
          simp [specFlatten, String.data_append]

/-- The flattened string of a nonempty field list is nonempty. -/
theorem flattenData_cons_ne_empty (kv : String × String)
    (rest : List (String × String)) : flattenData (kv :: rest) ≠ "" := by
  obtain ⟨k, v⟩ := kv
  intro h
  have hd : (fieldBuffer ((k, v) :: rest)).dropLast = [] := by
    have := congrArg String.data h
    simpa [flattenData] using this
  have hlen := congrArg List.length hd
  have h2 : 2 ≤ (fieldBuffer ((k, v) :: rest)).length := by
    simp [fieldBuffer]
    omega
  simp [List.length_dropLast] at hlen
  omega

/-- C3: `started` installs the panic file at the configuration-derived path
`Config.Root \ panic.log`; when installation succeeds it sends `false` on
the `tosvc` channel and returns nil, and when installation fails it returns
that error and performs no send. -/
theorem c3_started (env : OsEnv) (s : SysState) (root : String) :
    (∀ s1, initPanicFile env s (winJoin root "panic.log") = (s1, none) →
      started env s root = (none, [false], s1)) ∧
    (∀ s1 e, initPanicFile env s (winJoin root "panic.log") = (s1, some e) →
      started env s root = (some e, [], s1)) := by
  constructor
  · intro s1 h
    simp [started, h]
  · intro s1 e h
    simp [started, h]

/-- Witness for the C3 theorem: a successful installation in an empty file
system sends `false`; a failing `os.OpenFile` propagates its error with no
send. -/
theorem c3_witness :
    started noErr ⟨[], [], OsHandle.std 7, OsHandle.std 0, none⟩ "r" =
      (none, [false],
        ⟨[("r\\panic.log", 0)], ["r\\panic.log"],
          OsHandle.file "r\\panic.log", OsHandle.std 7,
          some "r\\panic.log"⟩) ∧
    started ⟨some "boom", none, none, none, none⟩
        ⟨[], [], OsHandle.std 7, OsHandle.std 0, none⟩ "r" =
      (some "boom", [], ⟨[], [], OsHandle.std 7, OsHandle.std 0, none⟩) :=
  ⟨(c3_started noErr ⟨[], [], OsHandle.std 7, OsHandle.std 0, none⟩ "r").1 _
      (by decide),
    (c3_started ⟨some "boom", none, none, none, none⟩
      ⟨[], [], OsHandle.std 7, OsHandle.std 0, none⟩ "r").2 _ "boom"
      (by decide)⟩

/-- C6: with at least one extra field, `fire` submits a two-string event
whose secondary string is the fields flattened to `key=value` pairs joined
by single spaces (the trailing separator removed) and whose identifier is
the base identifier plus the extension offset; with no extra fields it
submits a single-string event at the base identifier. -/
theorem c6_fire_fields (level etype eid0 : Nat) (msg : String)
    (data : List (String × String))
    (hl : levelEventInfo level = some (etype, eid0))
    (hm : hasNul msg = false)
    (he : hasNul (flattenData data) = false) :
    (data ≠ [] →
      fire true level msg data =
        Except.ok (FireOutput.event etype (eid0 + eventExtraOffset)
          [msg, specFlatten data])) ∧
    (data = [] →
      fire true level msg data = Except.ok (FireOutput.event etype eid0 [msg])) := by
  constructor
  · intro hd
    match data, hd with
    | kv :: rest, _ =>
      have hflat := flattenData_cons kv rest
      have hne := flattenData_cons_ne_empty kv rest
      rw [← hflat]
      simp [fire, hl, hm, hne, he]
  · intro hd
    subst hd
    simp [fire, hl, hm]

/-- Witness for the C6 theorem: an Info record with fields a=1, b=2 yields
the secondary string "a=1 b=2" and identifier 1 + 10; the same record with
no fields yields a single string at identifier 1. -/
theorem c6_witness :
    levelEventInfo 4 = some (4, 1) ∧
    hasNul "m" = false ∧
    hasNul (flattenData [("a", "1"), ("b", "2")]) = false ∧
    ([("a", "1"), ("b", "2")] ≠ ([] : List (String × String))) ∧
    fire true 4 "m" [("a", "1"), ("b", "2")] =
      Except.ok (FireOutput.event 4 (1 + eventExtraOffset)
        ["m", specFlatten [("a", "1"), ("b", "2")]]) :=
  ⟨by decide, by decide, by decide, by decide,
    (c6_fire_fields 4 4 1 "m" [("a", "1"), ("b", "2")]
      (by decide) (by decide) (by decide)).1 (by decide)⟩

/-- A successful `redirectStderr` saves the incoming standard-error handle
in `oldStderr` and redirects standard error to the panic file, from any
prior state and error environment. -/
theorem redirectStderr_ok (env : OsEnv) (s : SysState) (path : String)
    (s1 : SysState) (h : redirectStderr env s path = (s1, none)) :
    s1.oldStderr = s.stderrHandle ∧ s1.stderrHandle = OsHandle.file path := by
  obtain ⟨oe, se, ce, ge, sse⟩ := env
  rcases ge with _ | e
  · rcases sse with _ | e
    · simp only [redirectStderr] at h
      rw [Prod.mk.injEq] at h
      rw [← h.1]
      exact ⟨rfl, rfl⟩
    · simp [redirectStderr] at h
  · simp [redirectStderr] at h

/-- Every successful `initPanicFile` run — under any error environment,
from any prior state, whether or not a rotation happened — records the
prior standard-error handle in `oldStderr` and redirects standard error to
the file at `path`. -/
theorem initPanicFile_ok_stderr (env : OsEnv) (s : SysState) (path : String)
    (s1 : SysState) (h : initPanicFile env s path = (s1, none)) :
    s1.oldStderr = s.stderrHandle ∧ s1.stderrHandle = OsHandle.file path := by
  obtain ⟨oe, se, ce, ge, sse⟩ := env
  rcases oe with _ | e
  · rcases se with _ | e
    · by_cases hr : 0 < (lookupFile s.files path).getD 0
      · rcases ce with _ | e
        · simp only [initPanicFile, hr, if_true] at h
          have h2 := redirectStderr_ok _ _ _ _ h
          exact h2
        · simp [initPanicFile, hr] at h
      · simp only [initPanicFile, hr, if_false] at h
        have h2 := redirectStderr_ok _ _ _ _ h
        exact h2
    · simp [initPanicFile] at h
  · simp [initPanicFile] at h

/-- C7: installing the panic file over an existing non-empty file closes
the old handle, renames the file to `path ++ ".old"` keeping its size,
creates a fresh empty file at `path`, saves the previous standard-error
handle in `oldStderr` and redirects standard error to the new file; and in
every successful installation whatsoever — any environment, any prior
state, with or without rotation — the previous standard-error handle is
recorded in `oldStderr` and standard error is redirected to the new
file. -/
theorem c7_initPanicFile_rotates (s : SysState) (path : String) (n : Nat)
    (hsz : lookupFile s.files path = some n) (hn : 0 < n) :
    (initPanicFile noErr s path).2 = none ∧
    lookupFile (initPanicFile noErr s path).1.files (path ++ ".old") =
      some n ∧
    lookupFile (initPanicFile noErr s path).1.files path = some 0 ∧
    (initPanicFile noErr s path).1.openFiles = path :: s.openFiles ∧
    (initPanicFile noErr s path).1.oldStderr = s.stderrHandle ∧
    (initPanicFile noErr s path).1.stderrHandle = OsHandle.file path ∧
    (initPanicFile noErr s path).1.panicFile = some path ∧
    (∀ env s0 s1, initPanicFile env s0 path = (s1, none) →
      s1.oldStderr = s0.stderrHandle ∧
      s1.stderrHandle = OsHandle.file path) := by
  have hne : path ≠ path ++ ".old" := (append_old_ne path).symm
  have heq : initPanicFile noErr s path =
      ({ files := setFile (setFile (removeFile (setFile s.files path n) path)
            (path ++ ".old") n) path 0,
         openFiles := path :: s.openFiles,
         stderrHandle := OsHandle.file path,
         oldStderr := s.stderrHandle,
         panicFile := some path }, none) := by
    simp [initPanicFile, noErr, redirectStderr, hsz, hn, closeOne]
  rw [heq]
  refine ⟨rfl, ?_, ?_, rfl, rfl, rfl, rfl,
    fun env s0 s1 hok => initPanicFile_ok_stderr env s0 path s1 hok⟩
  · rw [lookupFile_setFile_ne _ _ _ _ hne, lookupFile_setFile_self]
  · exact lookupFile_setFile_self _ _ _

/-- Witness for the C7 theorem at a one-file file system whose panic file
holds 5 bytes, plus the general record-and-redirect conjunct instantiated
at a successful installation over an absent file. -/
theorem c7_witness :
    lookupFile [("p", 5)] "p" = some 5 ∧ 0 < 5 ∧
    ((initPanicFile noErr ⟨[("p", 5)], [], OsHandle.std 7, OsHandle.std 0,
        none⟩ "p").2 = none ∧
      lookupFile (initPanicFile noErr ⟨[("p", 5)], [], OsHandle.std 7,
        OsHandle.std 0, none⟩ "p").1.files ("p" ++ ".old") = some 5 ∧
      lookupFile (initPanicFile noErr ⟨[("p", 5)], [], OsHandle.std 7,
        OsHandle.std 0, none⟩ "p").1.files "p" = some 0 ∧
      (initPanicFile noErr ⟨[("p", 5)], [], OsHandle.std 7, OsHandle.std 0,
        none⟩ "p").1.openFiles = "p" :: [] ∧
      (initPanicFile noErr ⟨[("p", 5)], [], OsHandle.std 7, OsHandle.std 0,
        none⟩ "p").1.oldStderr = OsHandle.std 7 ∧
      (initPanicFile noErr ⟨[("p", 5)], [], OsHandle.std 7, OsHandle.std 0,
        none⟩ "p").1.stderrHandle = OsHandle.file "p" ∧
      (initPanicFile noErr ⟨[("p", 5)], [], OsHandle.std 7, OsHandle.std 0,
        none⟩ "p").1.panicFile = some "p") ∧
    initPanicFile noErr ⟨[], [], OsHandle.std 9, OsHandle.std 0, none⟩ "p" =
      (⟨[("p", 0)], ["p"], OsHandle.file "p", OsHandle.std 9, some "p"⟩,
        none) ∧
    (⟨[("p", 0)], ["p"], OsHandle.file "p", OsHandle.std 9, some "p"⟩ :
        SysState).oldStderr = OsHandle.std 9 ∧
    (⟨[("p", 0)], ["p"], OsHandle.file "p", OsHandle.std 9, some "p"⟩ :
        SysState).stderrHandle = OsHandle.file "p" := by
  have T := c7_initPanicFile_rotates
    ⟨[("p", 5)], [], OsHandle.std 7, OsHandle.std 0, none⟩ "p" 5
    (by decide) (by decide)
  exact ⟨by decide, by decide,
    ⟨T.1, T.2.1, T.2.2.1, T.2.2.2.1, T.2.2.2.2.1, T.2.2.2.2.2.1,
      T.2.2.2.2.2.2.1⟩,
    by decide,
    T.2.2.2.2.2.2.2 noErr ⟨[], [], OsHandle.std 9, OsHandle.std 0, none⟩
      ⟨[("p", 0)], ["p"], OsHandle.file "p", OsHandle.std 9, some "p"⟩
      (by decide)⟩

/-- C8: releasing the panic file when its size is zero restores the saved
standard-error handle, closes the file and deletes it; when its size is
non-zero it leaves the state unchanged. -/
theorem c8_removePanicFile (s : SysState) (p : String)
    (hp : s.panicFile = some p) :
    (lookupFile s.files p = some 0 →
      removePanicFile s =
        { s with
          stderrHandle := s.oldStderr
          openFiles := closeOne s.openFiles p
          files := removeFile s.files p }) ∧
    (∀ n, lookupFile s.files p = some n → n ≠ 0 → removePanicFile s = s) := by
  constructor
  · intro h0
    simp [removePanicFile, hp, h0]
  · intro n hn hne
    simp [removePanicFile, hp, hn, hne]

/-- Witness for the C8 theorem: an empty panic file is cleaned up and the
handle restored; a 3-byte panic file is left untouched. -/
theorem c8_witness :
    removePanicFile ⟨[("p", 0)], ["p"], OsHandle.file "p", OsHandle.std 7,
        some "p"⟩ =
      ⟨[], [], OsHandle.std 7, OsHandle.std 7, some "p"⟩ ∧
    removePanicFile ⟨[("p", 3)], ["p"], OsHandle.file "p", OsHandle.std 7,
        some "p"⟩ =
      ⟨[("p", 3)], ["p"], OsHandle.file "p", OsHandle.std 7, some "p"⟩ :=
  ⟨(c8_removePanicFile ⟨[("p", 0)], ["p"], OsHandle.file "p", OsHandle.std 7,
      some "p"⟩ "p" rfl).1 (by decide),
    (c8_removePanicFile ⟨[("p", 3)], ["p"], OsHandle.file "p", OsHandle.std 7,
      some "p"⟩ "p" rfl).2 3 (by decide) (by decide)⟩
